import Mathlib

/-!
Verification of the active-discovery core of the UAP_Dog_Whistle repository.

The Python sources under `src/active-discovery/` are embedded shallowly:
exact rational arithmetic (`ℚ`) stands for the float arithmetic where the
code computes with ratios, sums and comparisons only, and real arithmetic
(`ℝ`) stands in where square roots occur (`np.std`, magnitudes, Pearson
correlation).  Fallible code is embedded with `Except`/`Option`, and the
single `logger.warning` call that the specification makes observable is
embedded as a boolean flag in the function's result.
-/

namespace UAPDW

/-! ### Response analyzer: rational part
Embeds `src/active-discovery/response_analyzer.py`.  The analyzer object
carries `anomaly_threshold`, `baseline_mean` and `baseline_std`
(`ResponseAnalyzer.__init__`, lines 83-94); the two baseline fields are
`Option` because the Python fields may be `None`. -/

/-- Analyzer state: `anomaly_threshold`, `baseline_mean`, `baseline_std`
fields of `ResponseAnalyzer`. -/
structure Analyzer where
  anomalyThreshold : ℚ
  baselineMean : Option ℚ
  baselineStd : Option ℚ
  deriving Repr, DecidableEq

/-- The guard constant `1e-12` used throughout `response_analyzer.py`. -/
def eps : ℚ := 1 / 10 ^ 12

/-- Metrics record (`ResponseMetrics` dataclass); only the fields that the
rational-arithmetic routines consume or produce are carried. -/
structure ResponseMetrics where
  probeId : ℤ
  powerMean : ℚ
  anomalyScore : ℚ
  isAnomaly : Bool
  deriving Repr, DecidableEq

/-- Mean of a list of rationals, as `np.mean` (sum divided by length;
Lean's total division makes the empty case `0/0 = 0`). -/
def meanQ (l : List ℚ) : ℚ := l.sum / l.length

/-- Embeds `ResponseAnalyzer.compute_llr_from_metrics` (lines 296-315):
if either baseline component is `None` the result is `0.0`; otherwise
`h1_mean = baseline_mean + anomaly_threshold * baseline_std`,
`variance = baseline_std ** 2`, `mu_diff = h1_mean - baseline_mean`, and
the result is `(y * mu_diff - 0.5 * mu_diff ** 2) / (variance + 1e-12)`
with `y = metrics.power_mean`. -/
def computeLlrFromMetrics (a : Analyzer) (m : ResponseMetrics) : ℚ :=
  match a.baselineMean, a.baselineStd with
  | some bm, some bs =>
    let y := m.powerMean
    let h1Mean := bm + a.anomalyThreshold * bs
    let variance := bs ^ 2
    let muDiff := h1Mean - bm
    (y * muDiff - (1 / 2) * muDiff ^ 2) / (variance + eps)
  | _, _ => 0

/-- Result of `ResponseAnalyzer.analyze` (lines 117-180) restricted to the
power-mean/anomaly fields, plus the `logger.warning` emission of line 162
recorded as the flag `baselineWarning`. -/
structure AnalyzeResult where
  powerMean : ℚ
  anomalyScore : ℚ
  isAnomaly : Bool
  baselineWarning : Bool
  deriving Repr, DecidableEq

/-- Embeds the anomaly-detection portion of `ResponseAnalyzer.analyze`
(lines 142-162).  The Welch PSD estimate of the input buffer
(`_compute_power_spectrum`) is abstracted as a function `psd` from buffers
to the vector of power values; `power_mean` is its mean (line 144).  With
both baseline fields set, `anomaly_score = (power_mean - baseline_mean) /
(baseline_std + 1e-12)` and `is_anomaly = anomaly_score >
anomaly_threshold` (lines 156-158); otherwise the score is `0.0`,
`is_anomaly` is false, and a warning is emitted (lines 159-162). -/
def analyze {α : Type} (psd : α → List ℚ) (a : Analyzer) (buf : α) :
    AnalyzeResult :=
  let powerMean := meanQ (psd buf)
  match a.baselineMean, a.baselineStd with
  | some bm, some bs =>
    let score := (powerMean - bm) / (bs + eps)
    ⟨powerMean, score, decide (score > a.anomalyThreshold), false⟩
  | _, _ => ⟨powerMean, 0, false, true⟩

/-! ### Configuration validation
Embeds `APDConfig` and `APDConfig.validate` from
`src/active-discovery/config.py` (lines 18-119), restricted to the fields
`validate` reads plus `baseline_samples`. -/

/-- Modelled from the spec: the constant `HYDROGEN_LINE_HZ` comes from
`hlb.constants` in the repository's `hydrogen-line-beacon` package, which
is not under `src/`; the spec gives the hydrogen line as 1420.405 MHz. -/
def hydrogenLineHz : ℚ := 1420405000

/-- Configuration fields consumed by `APDConfig.validate`, plus
`baseline_samples`. -/
structure APDConfig where
  sprtAlpha : ℚ
  sprtBeta : ℚ
  maxIterations : ℤ
  probeDuration : ℚ
  listenDuration : ℚ
  carrierFreq : ℚ
  baselineSamples : ℤ
  legalCheck : Bool
  requireHamLicenseConfirm : Bool
  deriving Repr, DecidableEq

/-- Embeds `APDConfig.validate` (lines 100-119): raises `ValueError` for
`sprt_alpha` or `sprt_beta` outside `(0,1)`, `max_iterations < 1`,
`probe_duration <= 0` or `listen_duration <= 0`, then raises
`RuntimeError` when `legal_check` holds, the carrier is within 1 MHz of
the hydrogen line and `require_ham_license_confirm` holds.  Raising is
embedded as `Except.error` carrying the message. -/
def validate (c : APDConfig) : Except String Unit :=
  if ¬(0 < c.sprtAlpha ∧ c.sprtAlpha < 1) then
    Except.error "sprt_alpha must be in (0,1)"
  else if ¬(0 < c.sprtBeta ∧ c.sprtBeta < 1) then
    Except.error "sprt_beta must be in (0,1)"
  else if c.maxIterations < 1 then
    Except.error "max_iterations must be positive"
  else if c.probeDuration ≤ 0 then
    Except.error "probe_duration must be positive"
  else if c.listenDuration ≤ 0 then
    Except.error "listen_duration must be positive"
  else if c.legalCheck = true ∧ |c.carrierFreq - hydrogenLineHz| < 1000000 ∧
      c.requireHamLicenseConfirm = true then
    Except.error "Unlicensed transmission on 1420 MHz is illegal in most jurisdictions."
  else
    Except.ok ()

/-- A configuration that is in range on every parameter `validate` checks
but has `baseline_samples = 1`; all other fields keep the dataclass
defaults of `config.py` except the carrier, which sits on the 433.92 MHz
ISM band as in `active_beacon.main`. -/
def cfgLowBaseline : APDConfig :=
  { sprtAlpha := 1 / 100
    sprtBeta := 1 / 100
    maxIterations := 100
    probeDuration := 5
    listenDuration := 15
    carrierFreq := 433920000
    baselineSamples := 1
    legalCheck := true
    requireHamLicenseConfirm := true }

/-! ### Probe library
Embeds `src/active-discovery/probe_library.py`: the `ProbeType` enum
(lines 35-46), the `Probe` dataclass (lines 49-70), the
`_probe_generators` dispatch table (lines 90-100), `generate_iq`
(lines 165-184), `custom_probe` (lines 308-333) and `_silence`
(lines 303-306). -/

/-- The `ProbeType` enum. -/
inductive ProbeType where
  | hydrogenPulse
  | schumannAm
  | frequencySweep
  | primeSequence
  | fibonacciSequence
  | goldenRatio
  | chirpUp
  | chirpDown
  | silence
  | custom
  deriving DecidableEq, Repr, Fintype

/-- Identity of a generator method of `ProbeLibrary`; the waveform each
one synthesizes is not needed for the dispatch claims, so generators are
embedded by name. -/
inductive GeneratorId where
  | hydrogenPulse
  | schumannAm
  | frequencySweep
  | primeSequence
  | fibonacciSequence
  | goldenRatio
  | chirpUp
  | chirpDown
  | silence
  deriving DecidableEq, Repr, Fintype

/-- The `_probe_generators` dictionary (lines 90-100): each of the nine
standard kinds maps to its generator method; `CUSTOM` has no entry, so
`dict.get` yields `None`. -/
def probeGenerators : ProbeType → Option GeneratorId
  | .hydrogenPulse => some .hydrogenPulse
  | .schumannAm => some .schumannAm
  | .frequencySweep => some .frequencySweep
  | .primeSequence => some .primeSequence
  | .fibonacciSequence => some .fibonacciSequence
  | .goldenRatio => some .goldenRatio
  | .chirpUp => some .chirpUp
  | .chirpDown => some .chirpDown
  | .silence => some .silence
  | .custom => none

/-- The `Probe` dataclass restricted to the fields the dispatch claims
read (`parameters` is consumed only inside the individual generators). -/
structure Probe where
  type : ProbeType
  description : String
  klScore : ℚ
  deriving Repr, DecidableEq

/-- Embeds `ProbeLibrary.custom_probe` (lines 308-333): builds a probe of
type `CUSTOM` (the waveform function and duration live in the untracked
`parameters` mapping). -/
def customProbe (description : String) (klScore : ℚ) : Probe :=
  { type := ProbeType.custom, description := description, klScore := klScore }

/-- Embeds the dispatch of `ProbeLibrary.generate_iq` (lines 180-184):
look the probe's type up in `_probe_generators`; a missing entry raises
`ValueError`, otherwise the matching generator runs on the duration. -/
def generateIq (p : Probe) (duration : ℚ) : Except String (GeneratorId × ℚ) :=
  match probeGenerators p.type with
  | none => Except.error "Unknown probe type"
  | some g => Except.ok (g, duration)

/-! ### Wald SPRT thresholds
The `WaldSPRT` engine is imported by `active_beacon.py` from the `apd`
package, which is not under `src/`. -/

/-- Modelled from the spec: the Wald upper decision threshold
`A = ln((1-beta)/alpha)` of the SPRT engine (the `apd` package the source
imports is not under `src/`). -/
noncomputable def waldA (alpha beta : ℝ) : ℝ := Real.log ((1 - beta) / alpha)

/-- Modelled from the spec: the Wald lower decision threshold
`B = ln(beta/(1-alpha))`. -/
noncomputable def waldB (alpha beta : ℝ) : ℝ := Real.log (beta / (1 - alpha))

/-! ### Baseline calibration
Embeds `ResponseAnalyzer.set_baseline` (`response_analyzer.py` lines
96-115) together with the capture-count guard of
`ActiveBeacon.capture_baseline` (`active_beacon.py` lines 194-200).
Square roots appear in `np.std`, so this part is embedded over `ℝ`. -/

/-- Mean of a list of reals, as `np.mean` (empty case `0/0 = 0`). -/
noncomputable def meanR (l : List ℝ) : ℝ := l.sum / l.length

/-- Population variance, the square under `np.std` (`ddof = 0`): mean of
the squared deviations from the mean. -/
noncomputable def varR (l : List ℝ) : ℝ := meanR (l.map fun x => (x - meanR l) ^ 2)

/-- Population standard deviation `np.std`. -/
noncomputable def stdR (l : List ℝ) : ℝ := Real.sqrt (varR l)

/-- Embeds `ResponseAnalyzer.set_baseline` (lines 104-110): for each
capture take the mean of its power spectrum, then set `baseline_mean` to
the mean and `baseline_std` to the standard deviation of those per-capture
values.  The Welch estimator `_compute_power_spectrum` is abstracted as a
function `psd` from captures to their PSD vectors. -/
noncomputable def setBaseline {α : Type} (psd : α → List ℝ) (captures : List α) :
    ℝ × ℝ :=
  let powerSamples := captures.map fun c => meanR (psd c)
  (meanR powerSamples, stdR powerSamples)

/-- Embeds the guard of `ActiveBeacon.capture_baseline` (lines 194-200):
with at least 2 valid captures the baseline is set from them, otherwise
the calibration fails ("Failed to capture sufficient baseline samples"). -/
noncomputable def captureBaseline {α : Type} (psd : α → List ℝ)
    (captures : List α) : Option (ℝ × ℝ) :=
  if 2 ≤ captures.length then some (setBaseline psd captures) else none

/-! ### Silence probe rendering
Embeds `ProbeLibrary._silence` (`probe_library.py` lines 303-306).  The
quantizer `to_iq_int8` comes from `hlb.waveforms`, which is not under
`src/`, and is modelled from the spec. -/

/-- Modelled from the spec: quantization of one normalized sample to a
signed 8-bit value in `[-127, 127]` (spec section 3, RenderedSignal). -/
def quantizeInt8 (x : ℚ) : ℤ := max (-127) (min 127 (round (127 * x)))

/-- Modelled from the spec: `hlb.waveforms.to_iq_int8` — quantize the
in-phase and quadrature channels and interleave them sample by sample
into one int8 buffer (spec sections 3 and 4.1). -/
def toIqInt8 (i q : List ℚ) : List ℤ :=
  (i.zip q).flatMap fun p => [quantizeInt8 p.1, quantizeInt8 p.2]

/-- Embeds `ProbeLibrary._silence` (lines 303-306): `n_samples =
int(sample_rate * duration)` — Python `int()` truncates toward zero,
which on the nonnegative durations rendered here is the floor — and the
result is `to_iq_int8` of two all-zero channels of that length. -/
def silenceGen (sampleRate : ℕ) (duration : ℚ) : List ℤ :=
  let nSamples := (⌊(sampleRate : ℚ) * duration⌋).toNat
  toIqInt8 (List.replicate nSamples 0) (List.replicate nSamples 0)

/-! ### Cross-correlation
Embeds `ResponseAnalyzer._compute_correlation` (`response_analyzer.py`
lines 233-273).  The int8 buffers the probe-response pipeline feeds in are
interleaved I/Q streams; they are embedded as lists of I/Q sample pairs,
so the de-interleaving of lines 246-258 becomes the complex magnitude of
each pair. -/

/-- Magnitude `np.abs(i + 1j*q)` of one decoded sample (lines 246-258 and
266-267). -/
noncomputable def mag (p : ℤ × ℤ) : ℝ :=
  Real.sqrt ((p.1 : ℝ) ^ 2 + (p.2 : ℝ) ^ 2)

/-- Population covariance of two sequences about their own means, the
off-diagonal numerator of `np.corrcoef`. -/
noncomputable def covR (x y : List ℝ) : ℝ :=
  meanR (List.zipWith (fun a b => (a - meanR x) * (b - meanR y)) x y)

/-- The off-diagonal entry `np.corrcoef(x, y)[0, 1]`: covariance divided
by the product of the standard deviations. -/
noncomputable def corrcoef (x y : List ℝ) : ℝ := covR x y / (stdR x * stdR y)

/-- The near-zero-variance guard constant `1e-12` of line 269, over `ℝ`. -/
noncomputable def epsR : ℝ := 1 / 10 ^ 12

/-- Embeds `ResponseAnalyzer._compute_correlation` (lines 233-273):
truncate both decoded sequences to the shorter length (lines 260-263),
take the magnitudes (lines 266-267), return `0.0` when either magnitude
sequence has standard deviation below `1e-12` (lines 269-270), otherwise
the Pearson correlation of the magnitudes (lines 272-273; over `ℝ` the
`np.isnan` fallback of line 273 is subsumed by total division, which
yields the same `0` when the correlation is undefined). -/
noncomputable def computeCorrelation (response probe : List (ℤ × ℤ)) : ℝ :=
  let minLen := min response.length probe.length
  let responseMag := (response.take minLen).map mag
  let probeMag := (probe.take minLen).map mag
  if stdR responseMag < epsR ∨ stdR probeMag < epsR then 0
  else corrcoef responseMag probeMag

/-- Written from the spec's words, independently of the source: the
Pearson correlation coefficient of two equal-length sequences in sum form,
`Σ(xᵢ-x̄)(yᵢ-ȳ) / sqrt(Σ(xᵢ-x̄)² · Σ(yᵢ-ȳ)²)`. -/
noncomputable def pearsonSpec (x y : List ℝ) : ℝ :=
  (List.zipWith (fun a b => (a - x.sum / x.length) * (b - y.sum / y.length)) x y).sum /
    Real.sqrt ((x.map fun a => (a - x.sum / x.length) ^ 2).sum *
      (y.map fun b => (b - y.sum / y.length) ^ 2).sum)

end UAPDW

namespace UAPDW

/-! ### Theorems for claims C1, C2, C4, C10 -/

/-- C2: with both baseline components set, `compute_llr_from_metrics`
returns exactly `(y*Δ - Δ²/2) / (σ² + 1e-12)` where `y` is the metrics'
`power_mean` and `Δ = anomaly_threshold * baseline_std`; with either
component unset it returns exactly `0`. -/
theorem computeLlr_closed_form :
    (∀ (t bm bs : ℚ) (m : ResponseMetrics),
      computeLlrFromMetrics ⟨t, some bm, some bs⟩ m =
        (m.powerMean * (t * bs) - (t * bs) ^ 2 / 2) / (bs ^ 2 + eps)) ∧
    (∀ (t : ℚ) (obm obs : Option ℚ) (m : ResponseMetrics),
      obm = none ∨ obs = none →
      computeLlrFromMetrics ⟨t, obm, obs⟩ m = 0) := by
  constructor
  · intro t bm bs m
    simp only [computeLlrFromMetrics]
    ring_nf
  · intro t obm obs m h
    rcases h with h | h
    · subst h; cases obs <;> rfl
    · subst h; cases obm <;> rfl

/-- Witness for `computeLlr_closed_form` at a concrete unset baseline. -/
theorem computeLlr_closed_form_witness :
    computeLlrFromMetrics ⟨3, none, some (1 / 10)⟩ ⟨0, 1, 0, false⟩ = 0 :=
  computeLlr_closed_form.2 3 none (some (1 / 10)) ⟨0, 1, 0, false⟩ (Or.inl rfl)

/-- C1 (divergence): with baseline mean `1.0`, baseline std `0.1` and
threshold `3.0`, the code's LLR at `power_mean = 1.0` — the observation
exactly at the baseline mean — is strictly positive (about `+25.5`), not
strictly negative as the spec's end-to-end scenario requires; at
`power_mean = 1.3` it is strictly positive, as required.  The code omits
subtracting the baseline mean from the observation, contradicting its own
docstring formula `LLR = (observation - H0_mean) * H1_shift / variance`. -/
theorem computeLlr_positive_at_baseline_mean :
    0 < computeLlrFromMetrics ⟨3, some 1, some (1 / 10)⟩ ⟨0, 1, 0, false⟩ ∧
    0 < computeLlrFromMetrics ⟨3, some 1, some (1 / 10)⟩ ⟨0, 13 / 10, 0, false⟩ := by
  constructor <;> norm_num [computeLlrFromMetrics, eps]

/-- C4: on an analyzer with either baseline component unset, `analyze`
returns `anomaly_score = 0.0` and `is_anomaly = false` whatever the input
buffer's power, and emits the warning of line 162. -/
theorem analyze_no_baseline {α : Type} (psd : α → List ℚ) (t : ℚ)
    (obm obs : Option ℚ) (buf : α) (h : obm = none ∨ obs = none) :
    (analyze psd ⟨t, obm, obs⟩ buf).anomalyScore = 0 ∧
    (analyze psd ⟨t, obm, obs⟩ buf).isAnomaly = false ∧
    (analyze psd ⟨t, obm, obs⟩ buf).baselineWarning = true := by
  rcases h with h | h
  · subst h; cases obs <;> exact ⟨rfl, rfl, rfl⟩
  · subst h; cases obm <;> exact ⟨rfl, rfl, rfl⟩

/-- Witness for `analyze_no_baseline`: a high-power buffer analyzed with no
baseline mean. -/
theorem analyze_no_baseline_witness :
    (analyze (fun _ : Unit => [(1000 : ℚ)]) ⟨3, none, some (1 / 10)⟩ ()).anomalyScore = 0 ∧
    (analyze (fun _ : Unit => [(1000 : ℚ)]) ⟨3, none, some (1 / 10)⟩ ()).isAnomaly = false ∧
    (analyze (fun _ : Unit => [(1000 : ℚ)]) ⟨3, none, some (1 / 10)⟩ ()).baselineWarning = true :=
  analyze_no_baseline (fun _ : Unit => [(1000 : ℚ)]) 3 none (some (1 / 10)) ()
    (Or.inl rfl)

/-- C10: with a baseline set, `analyze` flags an anomaly exactly when the
anomaly score strictly exceeds the threshold; in particular a score equal
to the threshold is not an anomaly (the comparator of line 158 is the
strict `>`). -/
theorem analyze_anomaly_comparator_strict {α : Type} (psd : α → List ℚ)
    (t bm bs : ℚ) (buf : α) :
    ((analyze psd ⟨t, some bm, some bs⟩ buf).isAnomaly = true ↔
      t < (analyze psd ⟨t, some bm, some bs⟩ buf).anomalyScore) ∧
    ((analyze psd ⟨t, some bm, some bs⟩ buf).anomalyScore = t →
      (analyze psd ⟨t, some bm, some bs⟩ buf).isAnomaly = false) := by
  constructor
  · simp [analyze, gt_iff_lt]
  · intro h
    simp only [analyze] at h ⊢
    rw [h]
    simp

/-- Witness for `analyze_anomaly_comparator_strict`: a buffer whose power
mean puts the anomaly score exactly at the threshold `3.0` over baseline
mean `1.0`, std `0.1`, and the analyzer does not flag an anomaly. -/
theorem analyze_anomaly_comparator_strict_witness :
    (analyze (fun _ : Unit => [1 + 3 * (1 / 10 + eps)])
      ⟨3, some 1, some (1 / 10)⟩ ()).isAnomaly = false :=
  (analyze_anomaly_comparator_strict (fun _ : Unit => [1 + 3 * (1 / 10 + eps)])
    3 1 (1 / 10) ()).2 (by norm_num [analyze, meanQ, eps])

/-- C5 (counterexample): `validate` accepts a configuration whose
`baseline_samples` is `1`, with every checked parameter in range — the
insufficient baseline sample count is not validated, so validation does
not fail fast on it. -/
theorem validate_accepts_low_baseline_samples :
    validate cfgLowBaseline = Except.ok () ∧ cfgLowBaseline.baselineSamples < 2 := by
  constructor
  · norm_num [validate, cfgLowBaseline, hydrogenLineHz, abs_sub_lt_iff]
  · norm_num [cfgLowBaseline]

/-- C5 (amended): `validate` succeeds exactly when `sprt_alpha` and
`sprt_beta` lie in the open interval `(0,1)`, `max_iterations ≥ 1`,
`probe_duration > 0`, `listen_duration > 0`, and the licence gate does not
trigger; `baseline_samples` is not examined (it is only enforced later, at
baseline capture). -/
theorem validate_ok_iff (c : APDConfig) :
    validate c = Except.ok () ↔
      (0 < c.sprtAlpha ∧ c.sprtAlpha < 1) ∧
      (0 < c.sprtBeta ∧ c.sprtBeta < 1) ∧
      1 ≤ c.maxIterations ∧ 0 < c.probeDuration ∧ 0 < c.listenDuration ∧
      ¬(c.legalCheck = true ∧ |c.carrierFreq - hydrogenLineHz| < 1000000 ∧
        c.requireHamLicenseConfirm = true) := by
  unfold validate
  split_ifs with h1 h2 h3 h4 h5 h6 <;>
    simp_all [not_lt, not_le]

/-- C6: a probe whose kind has no entry in the generator table — in
particular any probe built by `custom_probe` — makes `generate_iq` raise
`ValueError` rather than fall back to a default signal, and each of the
nine standard kinds maps to exactly one generator (distinct kinds map to
distinct generators). -/
theorem generateIq_dispatch :
    (∀ (p : Probe) (d : ℚ), probeGenerators p.type = none →
      generateIq p d = Except.error "Unknown probe type") ∧
    (∀ (desc : String) (k d : ℚ),
      generateIq (customProbe desc k) d = Except.error "Unknown probe type") ∧
    (∀ t : ProbeType, t ≠ ProbeType.custom → ∃ g, probeGenerators t = some g) ∧
    (∀ t t' : ProbeType, t ≠ ProbeType.custom → t' ≠ ProbeType.custom →
      probeGenerators t = probeGenerators t' → t = t') := by
  refine ⟨fun p d h => ?_, fun desc k d => rfl, by decide, by decide⟩
  simp [generateIq, h]

/-- Witness for `generateIq_dispatch`: a concrete custom probe is rejected
by `generate_iq`. -/
theorem generateIq_dispatch_witness :
    generateIq (customProbe "user waveform" 1) 5 = Except.error "Unknown probe type" :=
  generateIq_dispatch.1 (customProbe "user waveform" 1) 5 rfl

/-- C7 (counterexample): at `alpha = 1/2`, `beta = 9/10` — both inside
`(0,1)` — the Wald upper threshold `A = ln((1-beta)/alpha) = ln(1/5)` is
negative, so `A > 0 > B` does not hold for every pair in `(0,1) × (0,1)`. -/
theorem wald_claim_fails_inside_unit_square :
    (0 : ℝ) < 1 / 2 ∧ (1 / 2 : ℝ) < 1 ∧ (0 : ℝ) < 9 / 10 ∧ (9 / 10 : ℝ) < 1 ∧
    waldA (1 / 2) (9 / 10) < 0 := by
  refine ⟨by norm_num, by norm_num, by norm_num, by norm_num, ?_⟩
  have h : ((1 : ℝ) - 9 / 10) / (1 / 2) = 1 / 5 := by norm_num
  rw [waldA, h]
  exact Real.log_neg (by norm_num) (by norm_num)

/-- C7 (amended): for `alpha, beta` in `(0,1)` with `alpha + beta < 1`
(true of every sensible error-rate pair, e.g. the defaults `0.01, 0.01`),
the Wald thresholds satisfy `A = ln((1-beta)/alpha) > 0` and
`B = ln(beta/(1-alpha)) < 0`. -/
theorem wald_thresholds_ordered (a b : ℝ) (ha0 : 0 < a) (ha1 : a < 1)
    (hb0 : 0 < b) (hb1 : b < 1) (hab : a + b < 1) :
    0 < waldA a b ∧ waldB a b < 0 := by
  constructor
  · exact Real.log_pos ((one_lt_div ha0).mpr (by linarith))
  · exact Real.log_neg (div_pos hb0 (by linarith))
      ((div_lt_one (by linarith)).mpr (by linarith))

/-- Witness for `wald_thresholds_ordered` at the default error rates
`alpha = beta = 0.01`. -/
theorem wald_thresholds_ordered_witness :
    0 < waldA (1 / 100) (1 / 100) ∧ waldB (1 / 100) (1 / 100) < 0 :=
  wald_thresholds_ordered (1 / 100) (1 / 100) (by norm_num) (by norm_num)
    (by norm_num) (by norm_num) (by norm_num)

/-- C3: calibration from exactly 1 capture fails; from at least 2 captures
it succeeds, the baseline mean is the arithmetic mean (sum over count) of
the per-capture mean-PSD values, and the baseline standard deviation is
nonnegative. -/
theorem calibrate_two_captures {α : Type} (psd : α → List ℝ) (captures : List α) :
    (captures.length = 1 → captureBaseline psd captures = none) ∧
    (2 ≤ captures.length →
      ∃ b, captureBaseline psd captures = some b ∧
        b.1 = (captures.map fun c => meanR (psd c)).sum / captures.length ∧
        0 ≤ b.2) := by
  constructor
  · intro h
    simp [captureBaseline, h]
  · intro h
    refine ⟨setBaseline psd captures, by simp [captureBaseline, h], ?_, ?_⟩
    · simp [setBaseline, meanR]
    · exact Real.sqrt_nonneg _

/-- Witness for `calibrate_two_captures`: one capture is rejected, a
concrete pair of captures yields a baseline with the stated mean and a
nonnegative standard deviation. -/
theorem calibrate_two_captures_witness :
    (captureBaseline (fun _ : Unit => [(1 : ℝ)]) [()] = none) ∧
    (∃ b, captureBaseline (fun _ : Unit => [(1 : ℝ)]) [(), ()] = some b ∧
      b.1 = (([(), ()] : List Unit).map fun c =>
        meanR ((fun _ : Unit => [(1 : ℝ)]) c)).sum / ([(), ()] : List Unit).length ∧
      0 ≤ b.2) :=
  ⟨(calibrate_two_captures (fun _ : Unit => [(1 : ℝ)]) [()]).1 rfl,
   (calibrate_two_captures (fun _ : Unit => [(1 : ℝ)]) [(), ()]).2 (by simp)⟩

/-- Interleaving two all-zero channels of length `n` gives `2 * n` zero
samples. -/
theorem toIqInt8_zero_channels (n : ℕ) :
    toIqInt8 (List.replicate n 0) (List.replicate n 0) = List.replicate (2 * n) 0 := by
  have hq : quantizeInt8 0 = 0 := by norm_num [quantizeInt8]
  induction n with
  | zero => rfl
  | succ k ih =>
    have hstep : toIqInt8 (List.replicate (k + 1) 0) (List.replicate (k + 1) 0) =
        0 :: 0 :: toIqInt8 (List.replicate k 0) (List.replicate k 0) := by
      simp only [List.replicate_succ, toIqInt8, List.zip_cons_cons,
        List.flatMap_cons, hq, List.cons_append, List.nil_append]
    rw [hstep, ih, show 2 * (k + 1) = 2 * k + 1 + 1 by ring,
      List.replicate_succ, List.replicate_succ]

/-- C9: rendering the silence probe for 1 second at 2 MHz yields exactly
`2 * round(1.0 * 2_000_000) = 4_000_000` interleaved int8 samples, all of
them zero. -/
theorem silence_render_all_zero :
    (silenceGen 2000000 1).length = 2 * (round ((1 : ℚ) * 2000000)).toNat ∧
    ∀ x ∈ silenceGen 2000000 1, x = 0 := by
  have hfloor : ((⌊((2000000 : ℕ) : ℚ) * 1⌋).toNat) = 2000000 := by
    norm_num
    rfl
  have hrep : silenceGen 2000000 1 = List.replicate (2 * 2000000) 0 := by
    rw [silenceGen]
    rw [hfloor]
    exact toIqInt8_zero_channels 2000000
  have hround : (round ((1 : ℚ) * 2000000)).toNat = 2000000 := by
    norm_num
    rfl
  rw [hrep, hround]
  refine ⟨List.length_replicate _ _, ?_⟩
  intro x hx
  exact List.eq_of_mem_replicate hx

/-- The mean-normalized covariance-over-stds form of the correlation
coefficient (`np.corrcoef`) agrees with the sum-form Pearson coefficient
on equal-length sequences. -/
theorem corrcoef_eq_pearsonSpec (x y : List ℝ) (h : x.length = y.length) :
    corrcoef x y = pearsonSpec x y := by
  rcases eq_or_ne x ([] : List ℝ) with hx | hx
  · subst hx
    have hy : y = [] := by
      cases y with
      | nil => rfl
      | cons a t => simp at h
    subst hy
    simp [corrcoef, covR, meanR, pearsonSpec]
  · have hn0 : x.length ≠ 0 := fun hc => hx (List.length_eq_zero.mp hc)
    have hne : ((x.length : ℕ) : ℝ) ≠ 0 := Nat.cast_ne_zero.mpr hn0
    have hnn : (0 : ℝ) ≤ ((x.length : ℕ) : ℝ) := Nat.cast_nonneg _
    have hmin : min x.length y.length = x.length := by rw [h]; exact min_self _
    have e1 : x.sum / ((x.length : ℕ) : ℝ) = meanR x := by rw [meanR]
    have e2 : y.sum / ((y.length : ℕ) : ℝ) = meanR y := by rw [meanR]
    have hSxx0 : 0 ≤ (x.map fun a => (a - meanR x) ^ 2).sum := by
      apply List.sum_nonneg
      intro z hz
      obtain ⟨a, -, rfl⟩ := List.mem_map.mp hz
      positivity
    have hSyy0 : 0 ≤ (y.map fun b => (b - meanR y) ^ 2).sum := by
      apply List.sum_nonneg
      intro z hz
      obtain ⟨b, -, rfl⟩ := List.mem_map.mp hz
      positivity
    have hcov : covR x y =
        (List.zipWith (fun a b => (a - meanR x) * (b - meanR y)) x y).sum /
          ((x.length : ℕ) : ℝ) := by
      rw [covR, meanR, List.length_zipWith, hmin]
    have hstdx : stdR x =
        Real.sqrt ((x.map fun a => (a - meanR x) ^ 2).sum) /
          Real.sqrt ((x.length : ℕ) : ℝ) := by
      rw [stdR, varR, meanR, List.length_map, Real.sqrt_div hSxx0]
    have hstdy : stdR y =
        Real.sqrt ((y.map fun b => (b - meanR y) ^ 2).sum) /
          Real.sqrt ((y.length : ℕ) : ℝ) := by
      rw [stdR, varR, meanR, List.length_map, Real.sqrt_div hSyy0]
    rw [corrcoef, hcov, hstdx, hstdy, ← h, div_mul_div_comm,
      Real.mul_self_sqrt hnn, ← Real.sqrt_mul hSxx0, div_div_div_comm,
      div_self hne, div_one, pearsonSpec]
    simp only [e1, e2]

/-- C8: the correlation computation truncates both decoded sequences to
the shorter length and applies the variance guard: it returns `0` when
either truncated magnitude sequence has standard deviation below `1e-12`,
and otherwise returns the sum-form Pearson correlation of the two
magnitude sequences, whose denominator is then built from a strictly
positive product of standard deviations (so the value is well defined —
no NaN arises). -/
theorem computeCorrelation_pearson (response probe : List (ℤ × ℤ)) :
    (stdR ((response.take (min response.length probe.length)).map mag) < epsR ∨
        stdR ((probe.take (min response.length probe.length)).map mag) < epsR →
      computeCorrelation response probe = 0) ∧
    (¬(stdR ((response.take (min response.length probe.length)).map mag) < epsR ∨
        stdR ((probe.take (min response.length probe.length)).map mag) < epsR) →
      computeCorrelation response probe =
        pearsonSpec ((response.take (min response.length probe.length)).map mag)
          ((probe.take (min response.length probe.length)).map mag) ∧
      0 < stdR ((response.take (min response.length probe.length)).map mag) *
          stdR ((probe.take (min response.length probe.length)).map mag)) := by
  constructor
  · intro hg
    simp only [computeCorrelation]
    rw [if_pos hg]
  · intro hg
    have hg' := hg
    push_neg at hg'
    refine ⟨?_, ?_⟩
    · simp only [computeCorrelation]
      rw [if_neg hg]
      apply corrcoef_eq_pearsonSpec
      simp only [List.length_map, List.length_take]
      omega
    · have he : (0 : ℝ) < epsR := by norm_num [epsR]
      exact mul_pos (lt_of_lt_of_le he hg'.1) (lt_of_lt_of_le he hg'.2)

/-- Witness for `computeCorrelation_pearson`: a constant zero response and
a varying probe; the response magnitudes have zero standard deviation, so
the correlation is exactly `0`. -/
theorem computeCorrelation_pearson_witness :
    computeCorrelation [((0 : ℤ), (0 : ℤ)), (0, 0)] [((1 : ℤ), (0 : ℤ)), (2, 0)] = 0 := by
  have hm : mag (0, 0) = 0 := by norm_num [mag]
  have h0 : stdR (([((0 : ℤ), (0 : ℤ)), (0, 0)].take
      (min ([((0 : ℤ), (0 : ℤ)), (0, 0)] : List (ℤ × ℤ)).length
        ([((1 : ℤ), (0 : ℤ)), (2, 0)] : List (ℤ × ℤ)).length)).map mag) < epsR := by
    norm_num [stdR, varR, meanQ, meanR, hm, epsR]
  exact (computeCorrelation_pearson [((0 : ℤ), (0 : ℤ)), (0, 0)]
    [((1 : ℤ), (0 : ℤ)), (2, 0)]).1 (Or.inl h0)

end UAPDW
